import Mathlib

/-!
# Verification of the kuberhealthy CRD state-persistence layer

Shallow embedding of `cmd/kuberhealthy/crd.go`: the name sanitizer, the
khstate store client contract (get / create / update with optimistic
concurrency), the existence-ensuring protocol, the check-state writer,
the two state readers, and the job phase transitioner.

The remote store is modelled as a versioned document map keyed by
(name, namespace).  Concurrent interference between the two store calls
of a single operation (the source performs a `get` followed by a
`create` or `update`) is modelled by an explicit environment function
`env` applied to the store between the two calls; the sequential
versions instantiate `env` with `id`.
-/

set_option autoImplicit false

namespace Kuberhealthy

/-! ## Data model -/

/-- The workload kinds (`health.KHWorkload` in the source): a recurring
check or a one-shot job. -/
inductive KHWorkload where
  | KHCheck
  | KHJob
  deriving DecidableEq, Repr

/-- Modelled from the spec: `health.WorkloadDetails` (the CheckStateDocument
payload) is not under `src/`; per spec §3 it carries `ok`, `errors`,
`authoritativePod`, `lastRun`, plus the workload kind used to build the
default document. Timestamps are modelled as `Nat`. -/
structure WorkloadDetails where
  OK : Bool
  Errors : List String
  AuthoritativePod : String
  LastRun : Nat
  khWorkload : KHWorkload
  deriving DecidableEq, Repr

/-- Modelled from the spec: `health.NewWorkloadDetails` builds the
default/empty document for a kind (spec §4.3, §8: default is
`ok:false, errors:[]`, zero-valued stamps). -/
def NewWorkloadDetails (w : KHWorkload) : WorkloadDetails :=
  { OK := false, Errors := [], AuthoritativePod := "", LastRun := 0, khWorkload := w }

/-- Modelled from the spec: `khstatecrd.KuberhealthyState` — a khstate
document with its name, payload (`Spec`) and store-assigned
`resourceVersion` (modelled as `Nat`, `0` meaning "fresh / unset"). -/
structure KHState where
  name : String
  spec : WorkloadDetails
  resourceVersion : Nat
  deriving DecidableEq, Repr

/-- Modelled from the spec: `khstatecrd.NewKuberhealthyState` builds a fresh
document (no resource version yet) from a name and a payload. -/
def NewKuberhealthyState (name : String) (spec : WorkloadDetails) : KHState :=
  { name := name, spec := spec, resourceVersion := 0 }

/-! ## Error model

The k8s client errors (`NotFound`, `AlreadyExists`, `Conflict`, other
store errors), and the errors this layer returns: either a client error
propagated unchanged (`KHError.k8s`) or a fresh error built with
`errors.New` (`KHError.newErr`). -/

/-- A k8s API error, as classified by `k8sErrors.IsNotFound` etc. -/
inductive K8sErr where
  | notFound (msg : String)
  | alreadyExists (msg : String)
  | conflict (msg : String)
  | other (msg : String)
  deriving DecidableEq, Repr

/-- The `err.Error()`: the message of a k8s error. -/
def K8sErr.message : K8sErr → String
  | .notFound m => m
  | .alreadyExists m => m
  | .conflict m => m
  | .other m => m

/-- The `k8sErrors.IsNotFound`. -/
def k8sIsNotFound : K8sErr → Bool
  | .notFound _ => true
  | _ => false

/-- An error returned by this layer: a k8s error returned unchanged, or a
fresh error message built with `errors.New`. -/
inductive KHError where
  | k8s (e : K8sErr)
  | newErr (msg : String)
  deriving DecidableEq, Repr

/-- The message of a layer error. -/
def KHError.message : KHError → String
  | .k8s e => e.message
  | .newErr m => m

/-! ## Go string helpers (`strings.Contains`, `strings.ToLower`,
`strings.Replace`) -/

/-- The `strings.HasPrefix` on character lists. -/
def strStartsWith : List Char → List Char → Bool
  | _, [] => true
  | [], _ :: _ => false
  | a :: as, b :: bs => a = b && strStartsWith as bs

/-- Helper for `strings.Contains`: does some suffix of the haystack start
with the needle? -/
def strContainsAux : List Char → List Char → Bool
  | [], needle => needle.isEmpty
  | a :: as, needle => strStartsWith (a :: as) needle || strContainsAux as needle

/-- The `strings.Contains(hay, needle)`. -/
def goStringContains (hay needle : String) : Bool :=
  strContainsAux hay.data needle.data

/-- One character of Go's `strings.ToLower` (ASCII case mapping, the only
range exercised by DNS-1123 resource names). -/
def goLowerChar (ch : Char) : Char :=
  if 65 ≤ ch.toNat ∧ ch.toNat ≤ 90 then Char.ofNat (ch.toNat + 32) else ch

/-- One character of `strings.Replace(s, " ", "-", -1)`. -/
def goReplaceSpace (ch : Char) : Char :=
  if ch = ' ' then '-' else ch

/-- The `strings.Replace(strings.ToLower s, " ", "-", -1)` character by
character: lowercase, then map space to hyphen. -/
def sanitizeChars : List Char → List Char
  | [] => []
  | c :: cs => goReplaceSpace (goLowerChar c) :: sanitizeChars cs

/-- The `sanitizeResourceName` (crd.go:61): lowercase the name and replace
every space with a hyphen. -/
def sanitizeResourceName (c : String) : String :=
  String.mk (sanitizeChars c.data)

/-! ## The khstate store client (`khStateClient`)

Modelled from the spec §4.2/§6: a versioned document store keyed by
(name, namespace).  `docs` maps a key to the stored payload and its
current resource version; `nextVersion` is the next version the store
will assign; `createCalls` / `updateCalls` count the mutation calls made
against the store; `fault` injects a transport/store error into `Get`
(modelling the `StoreError` case of the contract). -/
structure StateStore where
  docs : String × String → Option (WorkloadDetails × Nat)
  nextVersion : Nat
  createCalls : Nat
  updateCalls : Nat
  fault : Option K8sErr

/-- The `khStateClient.Get(opts, resource, name, namespace)`: fails with the
injected store fault if any, with `NotFound` if the key is absent, and
otherwise returns the stored document (whose metadata carries the key's
name and the current resource version). -/
def khGet (s : StateStore) (name ns : String) : Except K8sErr KHState :=
  match s.fault with
  | some e => .error e
  | none =>
    match s.docs (name, ns) with
    | some (d, rv) => .ok { name := name, spec := d, resourceVersion := rv }
    | none => .error (.notFound (name ++ " not found"))

/-- The `khStateClient.Create(doc, resource, namespace)`: fails with
`AlreadyExists` if the key is present, otherwise stores the document
with a freshly assigned version and returns it. -/
def khCreate (s : StateStore) (doc : KHState) (ns : String) :
    StateStore × Except K8sErr KHState :=
  match s.docs (doc.name, ns) with
  | some _ =>
    ({ s with createCalls := s.createCalls + 1 },
     .error (.alreadyExists (doc.name ++ " already exists")))
  | none =>
    ({ s with
        createCalls := s.createCalls + 1,
        docs := fun k => if k = (doc.name, ns) then some (doc.spec, s.nextVersion) else s.docs k,
        nextVersion := s.nextVersion + 1 },
     .ok { doc with resourceVersion := s.nextVersion })

/-- The `khStateClient.Update(doc, resource, name, namespace)`: fails with
`NotFound` if the key is absent; fails with `Conflict` if the document's
carried resource version does not match the store's current version;
otherwise atomically replaces the document, assigning a new version. -/
def khUpdate (s : StateStore) (doc : KHState) (name ns : String) :
    StateStore × Except K8sErr KHState :=
  match s.docs (name, ns) with
  | none =>
    ({ s with updateCalls := s.updateCalls + 1 },
     .error (.notFound (name ++ " not found")))
  | some (_, rv) =>
    if rv = doc.resourceVersion then
      ({ s with
          updateCalls := s.updateCalls + 1,
          docs := fun k => if k = (name, ns) then some (doc.spec, s.nextVersion) else s.docs k,
          nextVersion := s.nextVersion + 1 },
       .ok { doc with resourceVersion := s.nextVersion })
    else
      ({ s with updateCalls := s.updateCalls + 1 },
       .error (.conflict (name ++ " the object has been modified")))

/-! ## The layer operations (crd.go) -/

/-- The `buildCheckStateDoc` is the document `setCheckStateResource` submits to
`Update` (crd.go:44-48): the payload stamped with `AuthoritativePod` and
`LastRun`, wrapped by `NewKuberhealthyState`, carrying the resource
version fetched in the preceding `Get`. -/
def buildCheckStateDoc (name : String) (state : WorkloadDetails)
    (podHostname : String) (now : Nat) (resourceVersion : Nat) : KHState :=
  let stamped := { state with AuthoritativePod := podHostname, LastRun := now }
  let khState := NewKuberhealthyState name stamped
  { khState with resourceVersion := resourceVersion }

/-- The `setCheckStateResource` (crd.go:31-54), with an explicit environment
`env` interleaved between the `Get` and the `Update` to model concurrent
writers; `podHostname` and `now` are the ambient process identity and
clock.  On a `Get` failure the error is wrapped with `errors.New`; the
`Update` result (error or success) is returned unchanged. -/
def setCheckStateResourceWith (checkName checkNamespace : String)
    (state : WorkloadDetails) (podHostname : String) (now : Nat)
    (env : StateStore → StateStore) (s : StateStore) :
    StateStore × Option KHError :=
  let name := sanitizeResourceName checkName
  match khGet s name checkNamespace with
  | .error err =>
    (s, some (.newErr ("Error retrieving CRD for: " ++ name ++ " " ++ err.message)))
  | .ok existingState =>
    let resourceVersion := existingState.resourceVersion
    let khState := buildCheckStateDoc name state podHostname now resourceVersion
    match khUpdate (env s) khState name checkNamespace with
    | (s1, .error e) => (s1, some (.k8s e))
    | (s1, .ok _) => (s1, none)

/-- The `setCheckStateResource` run without concurrent interference. -/
def setCheckStateResource (checkName checkNamespace : String)
    (state : WorkloadDetails) (podHostname : String) (now : Nat)
    (s : StateStore) : StateStore × Option KHError :=
  setCheckStateResourceWith checkName checkNamespace state podHostname now id s

/-- The `ensureStateResourceExists` (crd.go:69-91), with an explicit
environment `env` interleaved between the `Get` and the `Create`.  A
`Get` error passing `k8sErrors.IsNotFound(err) ||
strings.Contains(err.Error(), "not found")` triggers creation of the
default document; a `Create` error is wrapped with `errors.New`; any
other `Get` error is returned unchanged. -/
def ensureStateResourceExistsWith (checkName checkNamespace : String)
    (workload : KHWorkload) (env : StateStore → StateStore) (s : StateStore) :
    StateStore × Option KHError :=
  let name := sanitizeResourceName checkName
  match khGet s name checkNamespace with
  | .ok _ => (s, none)
  | .error err =>
    if k8sIsNotFound err || goStringContains err.message "not found" then
      let initialDetails := NewWorkloadDetails workload
      let initialState := NewKuberhealthyState name initialDetails
      match khCreate (env s) initialState checkNamespace with
      | (s1, .error e) =>
        (s1, some (.newErr ("Error creating custom resource: " ++ name ++ ": " ++ e.message)))
      | (s1, .ok _) => (s1, none)
    else
      (s, some (.k8s err))

/-- The `ensureStateResourceExists` run without concurrent interference. -/
def ensureStateResourceExists (checkName checkNamespace : String)
    (workload : KHWorkload) (s : StateStore) : StateStore × Option KHError :=
  ensureStateResourceExistsWith checkName checkNamespace workload id s

/-- The `KuberhealthyCheck` interface as consumed here: a name and a
namespace (`Name()` / `CheckNamespace()`). -/
structure KuberhealthyCheck where
  name : String
  checkNamespace : String

/-- The `getCheckState` (crd.go:95-114): ensure the khstate document exists,
then fetch it and return its payload; on either failure return the
default `KHCheck` document together with a wrapped error. -/
def getCheckState (c : KuberhealthyCheck) (s : StateStore) :
    StateStore × WorkloadDetails × Option KHError :=
  let state := NewWorkloadDetails .KHCheck
  let name := sanitizeResourceName c.name
  match ensureStateResourceExists c.name c.checkNamespace .KHCheck s with
  | (s1, some err) =>
    (s1, state, some (.newErr ("Error validating CRD exists: " ++ name ++ " " ++ err.message)))
  | (s1, none) =>
    match khGet s1 name c.checkNamespace with
    | .error e =>
      (s1, state, some (.newErr ("Error retrieving custom khstate resource: " ++ name ++ " " ++ e.message)))
    | .ok khstate => (s1, khstate.spec, none)

/-- The `getJobState` (crd.go:118-137): identical to `getCheckState` except
that the workload kind is `KHJob`. -/
def getJobState (j : KuberhealthyCheck) (s : StateStore) :
    StateStore × WorkloadDetails × Option KHError :=
  let state := NewWorkloadDetails .KHJob
  let name := sanitizeResourceName j.name
  match ensureStateResourceExists j.name j.checkNamespace .KHJob s with
  | (s1, some err) =>
    (s1, state, some (.newErr ("Error validating CRD exists: " ++ name ++ " " ++ err.message)))
  | (s1, none) =>
    match khGet s1 name j.checkNamespace with
    | .error e =>
      (s1, state, some (.newErr ("Error retrieving custom khstate resource: " ++ name ++ " " ++ e.message)))
    | .ok khstate => (s1, khstate.spec, none)

/-- The unified ensure-then-fetch State Reader, parameterized by the
workload kind (spec §4.5 and §9 describe `getCheckState` / `getJobState`
as one pattern over two kinds).  This is the second definition of the
refinement claim: `getCheckState` and `getJobState` are proved equal to
its two instances. -/
def ensureThenFetch (kind : KHWorkload) (c : KuberhealthyCheck) (s : StateStore) :
    StateStore × WorkloadDetails × Option KHError :=
  let state := NewWorkloadDetails kind
  let name := sanitizeResourceName c.name
  match ensureStateResourceExists c.name c.checkNamespace kind s with
  | (s1, some err) =>
    (s1, state, some (.newErr ("Error validating CRD exists: " ++ name ++ " " ++ err.message)))
  | (s1, none) =>
    match khGet s1 name c.checkNamespace with
    | .error e =>
      (s1, state, some (.newErr ("Error retrieving custom khstate resource: " ++ name ++ " " ++ e.message)))
    | .ok khstate => (s1, khstate.spec, none)

/-! ## The khjob client and the phase transitioner -/

/-- Modelled from the spec: `v1.KuberhealthyJobSpec` — an opaque payload
(`payload`) plus the `phase` token (spec §3: "all fields other than
`phase` are preserved verbatim across a phase transition"). -/
structure JobSpec where
  phase : String
  payload : String
  deriving DecidableEq, Repr

/-- Modelled from the spec: `v1.KuberhealthyJob` — a job document keyed by
(name, namespace) with its spec and resource version. -/
structure KHJob where
  name : String
  jobNamespace : String
  spec : JobSpec
  resourceVersion : Nat
  deriving DecidableEq, Repr

/-- Modelled from the spec: `v1.NewKuberhealthyJob(name, namespace, spec)`
builds a fresh job document (no resource version yet). -/
def NewKuberhealthyJob (name ns : String) (spec : JobSpec) : KHJob :=
  { name := name, jobNamespace := ns, spec := spec, resourceVersion := 0 }

/-- Modelled from the spec: the khjob store consumed by `khJobClient`,
keyed by (name, namespace); this layer never creates job documents. -/
structure JobStore where
  docs : String × String → Option (JobSpec × Nat)
  nextVersion : Nat
  updateCalls : Nat

/-- The `khJobClient.KuberhealthyJobs(ns).Get(name, opts)`: `NotFound` if the
key is absent, else the stored document. -/
def jobGet (s : JobStore) (name ns : String) : Except K8sErr KHJob :=
  match s.docs (name, ns) with
  | some (d, rv) => .ok { name := name, jobNamespace := ns, spec := d, resourceVersion := rv }
  | none => .error (.notFound (name ++ " not found"))

/-- The `khJobClient.KuberhealthyJobs(ns).Update(job)`: `NotFound` if the key
is absent, `Conflict` if the carried resource version is stale, else an
atomic replace with a newly assigned version. -/
def jobUpdate (s : JobStore) (j : KHJob) (ns : String) :
    JobStore × Except K8sErr KHJob :=
  match s.docs (j.name, ns) with
  | none =>
    ({ s with updateCalls := s.updateCalls + 1 },
     .error (.notFound (j.name ++ " not found")))
  | some (_, rv) =>
    if rv = j.resourceVersion then
      ({ s with
          updateCalls := s.updateCalls + 1,
          docs := fun k => if k = (j.name, ns) then some (j.spec, s.nextVersion) else s.docs k,
          nextVersion := s.nextVersion + 1 },
       .ok { j with resourceVersion := s.nextVersion })
    else
      ({ s with updateCalls := s.updateCalls + 1 },
       .error (.conflict (j.name ++ " the object has been modified")))

/-- The `setJobPhaseDoc` is the document `setJobPhase` submits to `Update`
(crd.go:147-151): a new job document built from the raw job name,
namespace and the fetched spec, carrying the fetched resource version,
with `Spec.Phase` overwritten by the requested phase. -/
def setJobPhaseDoc (jobName jobNamespace jobPhase : String) (kj : KHJob) : KHJob :=
  let resourceVersion := kj.resourceVersion
  let updatedJob := NewKuberhealthyJob jobName jobNamespace kj.spec
  let updatedJob1 := { updatedJob with resourceVersion := resourceVersion }
  { updatedJob1 with spec := { updatedJob1.spec with phase := jobPhase } }

/-- The `setJobPhase` (crd.go:140-155), with an explicit environment `env`
interleaved between the `Get` and the `Update`.  Note the source passes
the raw `jobName` to both store calls — no sanitization.  Errors from
both store calls are returned unchanged. -/
def setJobPhaseWith (jobName jobNamespace jobPhase : String)
    (env : JobStore → JobStore) (s : JobStore) : JobStore × Option KHError :=
  match jobGet s jobName jobNamespace with
  | .error e => (s, some (.k8s e))
  | .ok kj =>
    let updatedJob := setJobPhaseDoc jobName jobNamespace jobPhase kj
    match jobUpdate (env s) updatedJob jobNamespace with
    | (s1, .error e) => (s1, some (.k8s e))
    | (s1, .ok _) => (s1, none)

/-- The `setJobPhase` run without concurrent interference. -/
def setJobPhase (jobName jobNamespace jobPhase : String) (s : JobStore) :
    JobStore × Option KHError :=
  setJobPhaseWith jobName jobNamespace jobPhase id s

/-! ## Helper lemmas: the sanitizer -/

lemma ofNat_toNat_upper (n : Nat) (h1 : 65 ≤ n) (h2 : n ≤ 90) :
    (Char.ofNat (n + 32)).toNat = n + 32 := by
  interval_cases n <;> decide

lemma goLowerChar_toNat_not_upper (c : Char) :
    ¬ (65 ≤ (goLowerChar c).toNat ∧ (goLowerChar c).toNat ≤ 90) := by
  unfold goLowerChar
  by_cases h : 65 ≤ c.toNat ∧ c.toNat ≤ 90
  · rw [if_pos h, ofNat_toNat_upper c.toNat h.1 h.2]
    omega
  · rw [if_neg h]
    exact h

lemma goLowerChar_idem (c : Char) : goLowerChar (goLowerChar c) = goLowerChar c := by
  have h := goLowerChar_toNat_not_upper c
  show (if 65 ≤ (goLowerChar c).toNat ∧ (goLowerChar c).toNat ≤ 90
        then Char.ofNat ((goLowerChar c).toNat + 32) else goLowerChar c) = goLowerChar c
  rw [if_neg h]

lemma sanitizeChar_idem (c : Char) :
    goReplaceSpace (goLowerChar (goReplaceSpace (goLowerChar c)))
      = goReplaceSpace (goLowerChar c) := by
  by_cases hsp : goLowerChar c = ' '
  · have h1 : goReplaceSpace (goLowerChar c) = '-' := by
      simp [goReplaceSpace, hsp]
    rw [h1]
    decide
  · have h1 : goReplaceSpace (goLowerChar c) = goLowerChar c := by
      simp [goReplaceSpace, hsp]
    rw [h1]
    simp [goReplaceSpace, goLowerChar_idem, hsp]

lemma sanitizeChars_idem (l : List Char) :
    sanitizeChars (sanitizeChars l) = sanitizeChars l := by
  induction l with
  | nil => rfl
  | cons c cs ih =>
    show goReplaceSpace (goLowerChar (goReplaceSpace (goLowerChar c))) :: sanitizeChars (sanitizeChars cs)
      = goReplaceSpace (goLowerChar c) :: sanitizeChars cs
    rw [sanitizeChar_idem, ih]

lemma sanitizeResourceName_idem (x : String) :
    sanitizeResourceName (sanitizeResourceName x) = sanitizeResourceName x := by
  unfold sanitizeResourceName
  rw [show (String.mk (sanitizeChars x.data)).data = sanitizeChars x.data from rfl,
    sanitizeChars_idem]

/-! ## Helper lemmas: substring containment -/

lemma strContainsAux_append (xs ys n : List Char) (h : strContainsAux ys n = true) :
    strContainsAux (xs ++ ys) n = true := by
  induction xs with
  | nil => simpa
  | cons a as ih =>
    show (strStartsWith (a :: (as ++ ys)) n || strContainsAux (as ++ ys) n) = true
    rw [ih]
    simp

lemma goStringContains_append (a b n : String) (h : goStringContains b n = true) :
    goStringContains (a ++ b) n = true := by
  unfold goStringContains at *
  rw [String.data_append]
  exact strContainsAux_append a.data b.data n.data h

/-! ## Helper lemmas: sanitization invariance of the khstate operations -/

lemma setCheckStateResource_sanitize (n ns : String) (st : WorkloadDetails)
    (pod : String) (now : Nat) (s : StateStore) :
    setCheckStateResource (sanitizeResourceName n) ns st pod now s
      = setCheckStateResource n ns st pod now s := by
  simp only [setCheckStateResource, setCheckStateResourceWith, sanitizeResourceName_idem]

lemma ensureStateResourceExistsWith_sanitize (n ns : String) (w : KHWorkload)
    (env : StateStore → StateStore) (s : StateStore) :
    ensureStateResourceExistsWith (sanitizeResourceName n) ns w env s
      = ensureStateResourceExistsWith n ns w env s := by
  simp only [ensureStateResourceExistsWith, sanitizeResourceName_idem]

lemma ensureStateResourceExists_sanitize (n ns : String) (w : KHWorkload) (s : StateStore) :
    ensureStateResourceExists (sanitizeResourceName n) ns w s
      = ensureStateResourceExists n ns w s := by
  simp only [ensureStateResourceExists, ensureStateResourceExistsWith_sanitize]

lemma getCheckState_sanitize (c : KuberhealthyCheck) (s : StateStore) :
    getCheckState { name := sanitizeResourceName c.name, checkNamespace := c.checkNamespace } s
      = getCheckState c s := by
  simp only [getCheckState, ensureStateResourceExists_sanitize, sanitizeResourceName_idem]

lemma getJobState_sanitize (c : KuberhealthyCheck) (s : StateStore) :
    getJobState { name := sanitizeResourceName c.name, checkNamespace := c.checkNamespace } s
      = getJobState c s := by
  simp only [getJobState, ensureStateResourceExists_sanitize, sanitizeResourceName_idem]

/-! ## Helper lemmas: update-call counting -/

lemma khUpdate_updateCalls (s : StateStore) (doc : KHState) (name ns : String) :
    ((khUpdate s doc name ns).1).updateCalls = s.updateCalls + 1 := by
  unfold khUpdate
  rcases h : s.docs (name, ns) with _ | ⟨d, rv⟩ <;> simp [h]
  split <;> rfl

lemma jobUpdate_updateCalls (s : JobStore) (j : KHJob) (ns : String) :
    ((jobUpdate s j ns).1).updateCalls = s.updateCalls + 1 := by
  unfold jobUpdate
  rcases h : s.docs (j.name, ns) with _ | ⟨d, rv⟩ <;> simp [h]
  split <;> rfl

/-! ## Concrete sample stores used by witnesses and counterexamples -/

/-- A sample check payload. -/
def sampleDetails : WorkloadDetails := NewWorkloadDetails .KHCheck

/-- A khstate store holding one document for check `db-ping` in
namespace `ops`, at version 5. -/
def storeWithDoc : StateStore :=
  { docs := fun k => if k = ("db-ping", "ops") then some (sampleDetails, 5) else none,
    nextVersion := 6, createCalls := 0, updateCalls := 0, fault := none }

/-- An empty khstate store. -/
def emptyStateStore : StateStore :=
  { docs := fun _ => none, nextVersion := 1, createCalls := 0, updateCalls := 0, fault := none }

/-- A khstate store whose `Get` fails with a transport error. -/
def faultyStateStore : StateStore :=
  { emptyStateStore with fault := some (.other "connection refused") }

/-- A concurrent environment that installs a document at the given key
with the given version, modelling another writer acting between this
invocation's two store calls. -/
def raceEnvAt (name ns : String) (d : WorkloadDetails) (rv : Nat) :
    StateStore → StateStore :=
  fun t => { t with docs := fun k => if k = (name, ns) then some (d, rv) else t.docs k }

/-- A sample job spec. -/
def sampleJobSpec : JobSpec := { phase := "Running", payload := "checkConfig" }

/-- A khjob store holding one job `nightly-job` in namespace `ops` at
version 3. -/
def jobStoreWithDoc : JobStore :=
  { docs := fun k => if k = ("nightly-job", "ops") then some (sampleJobSpec, 3) else none,
    nextVersion := 4, updateCalls := 0 }

/-- A khjob store holding one job under the sanitized key `my-job`, used
to exhibit `setJobPhase`'s unsanitized key usage. -/
def jobStoreSan : JobStore :=
  { docs := fun k => if k = ("my-job", "kuberhealthy") then some (sampleJobSpec, 3) else none,
    nextVersion := 4, updateCalls := 0 }

/-- A concurrent environment for the job store: bumps the stored version
of the given key, modelling a winning concurrent writer. -/
def jobRaceEnvAt (name ns : String) (d : JobSpec) (rv : Nat) : JobStore → JobStore :=
  fun t => { t with docs := fun k => if k = (name, ns) then some (d, rv) else t.docs k }

/-! ## Claim theorems -/

/-- C7: `sanitizeResourceName "My Check" = "my-check"`, and for every
string `x`, `sanitizeResourceName (sanitizeResourceName x) =
sanitizeResourceName x` (the sanitizer is idempotent). -/
theorem sanitizeResourceName_example_and_idem :
    sanitizeResourceName "My Check" = "my-check" ∧
    ∀ x : String, sanitizeResourceName (sanitizeResourceName x) = sanitizeResourceName x :=
  ⟨by decide, sanitizeResourceName_idem⟩

/-- C9: `getCheckState` and `getJobState` compute the same function
modulo the workload kind: each equals the unified ensure-then-fetch
reader `ensureThenFetch` instantiated at its kind (`KHCheck` resp.
`KHJob`), so on every input they perform the identical ensure-then-fetch
sequence against the same store key and differ only in the kind used for
the default document. -/
theorem getCheckState_getJobState_unified :
    ∀ (c : KuberhealthyCheck) (s : StateStore),
      getCheckState c s = ensureThenFetch KHWorkload.KHCheck c s ∧
      getJobState c s = ensureThenFetch KHWorkload.KHJob c s :=
  fun _ _ => ⟨rfl, rfl⟩

/-- C10: when a state document already exists for the (sanitized name,
namespace) key, `ensureStateResourceExists` performs no create or
update: it returns success and the store — every key's document and all
call counters — is unchanged. -/
theorem ensureStateResourceExists_existing_noop
    (checkName checkNamespace : String) (w : KHWorkload) (s : StateStore)
    (d : WorkloadDetails) (rv : Nat)
    (hf : s.fault = none)
    (hd : s.docs (sanitizeResourceName checkName, checkNamespace) = some (d, rv)) :
    ensureStateResourceExists checkName checkNamespace w s = (s, none) := by
  simp [ensureStateResourceExists, ensureStateResourceExistsWith, khGet, hf, hd]

/-- Witness for C10 at a concrete store holding `db-ping` in `ops`. -/
theorem ensureStateResourceExists_existing_noop_witness :
    ensureStateResourceExists "db-ping" "ops" KHWorkload.KHCheck storeWithDoc
      = (storeWithDoc, none) :=
  ensureStateResourceExists_existing_noop "db-ping" "ops" KHWorkload.KHCheck
    storeWithDoc sampleDetails 5 rfl rfl

/-- C3: when no state document exists for the (sanitized name,
namespace) key, `setCheckStateResource` fails — returning the
`errors.New` wrapping of the store's NotFound error, whose message
contains "not found" (the very test the code's own NotFound classifier
uses) — and it performs no create: the store, including its document map
and create counter, is returned unchanged, so the key still maps to no
document. -/
theorem setCheckStateResource_absent_fails
    (checkName checkNamespace : String) (st : WorkloadDetails)
    (pod : String) (now : Nat) (s : StateStore)
    (hf : s.fault = none)
    (hd : s.docs (sanitizeResourceName checkName, checkNamespace) = none) :
    setCheckStateResource checkName checkNamespace st pod now s =
      (s, some (KHError.newErr ("Error retrieving CRD for: " ++ sanitizeResourceName checkName
        ++ " " ++ (sanitizeResourceName checkName ++ " not found")))) ∧
    goStringContains ("Error retrieving CRD for: " ++ sanitizeResourceName checkName
        ++ " " ++ (sanitizeResourceName checkName ++ " not found")) "not found" = true := by
  constructor
  · simp [setCheckStateResource, setCheckStateResourceWith, khGet, hf, hd, K8sErr.message]
  · apply goStringContains_append
    apply goStringContains_append
    decide

/-- Witness for C3 at the empty store. -/
theorem setCheckStateResource_absent_fails_witness :
    setCheckStateResource "db-ping" "ops" sampleDetails "pod-1" 42 emptyStateStore =
      (emptyStateStore, some (KHError.newErr
        ("Error retrieving CRD for: " ++ sanitizeResourceName "db-ping"
          ++ " " ++ (sanitizeResourceName "db-ping" ++ " not found")))) :=
  (setCheckStateResource_absent_fails "db-ping" "ops" sampleDetails "pod-1" 42
    emptyStateStore rfl rfl).1

/-- C4: on the success path (the preceding get found the document at
version `rv`), the document `setCheckStateResource` submits to the
store's update — `buildCheckStateDoc` — carries `AuthoritativePod =
podHostname`, `LastRun = now` and `resourceVersion = rv`, and the
invocation succeeds, persisting exactly the stamped payload under the
key with a freshly assigned store version. -/
theorem setCheckStateResource_success_fields
    (checkName checkNamespace : String) (st : WorkloadDetails)
    (pod : String) (now : Nat) (s : StateStore) (d : WorkloadDetails) (rv : Nat)
    (hf : s.fault = none)
    (hd : s.docs (sanitizeResourceName checkName, checkNamespace) = some (d, rv)) :
    (buildCheckStateDoc (sanitizeResourceName checkName) st pod now rv).spec.AuthoritativePod = pod ∧
    (buildCheckStateDoc (sanitizeResourceName checkName) st pod now rv).spec.LastRun = now ∧
    (buildCheckStateDoc (sanitizeResourceName checkName) st pod now rv).resourceVersion = rv ∧
    setCheckStateResource checkName checkNamespace st pod now s =
      ({ s with
          docs := fun k => if k = (sanitizeResourceName checkName, checkNamespace)
                    then some ({ st with AuthoritativePod := pod, LastRun := now }, s.nextVersion)
                    else s.docs k,
          nextVersion := s.nextVersion + 1,
          updateCalls := s.updateCalls + 1 }, none) := by
  refine ⟨rfl, rfl, rfl, ?_⟩
  simp [setCheckStateResource, setCheckStateResourceWith, khGet, khUpdate,
    buildCheckStateDoc, NewKuberhealthyState, hf, hd]

/-- Witness for C4 at the store holding `db-ping` in `ops` at version 5. -/
theorem setCheckStateResource_success_fields_witness :
    (setCheckStateResource "db-ping" "ops" sampleDetails "pod-1" 42 storeWithDoc).2 = none := by
  rw [(setCheckStateResource_success_fields "db-ping" "ops" sampleDetails "pod-1" 42
    storeWithDoc sampleDetails 5 rfl rfl).2.2.2]

/-- C2: for every job document fetched by `setJobPhase`, the document it
writes back — `setJobPhaseDoc`, the value submitted to the store's
update — is identical to the fetched one except that `spec.phase` equals
the requested phase, and it carries the `resourceVersion` obtained from
the fetch; without interference the update then persists exactly the
fetched spec with only the phase changed. -/
theorem setJobPhase_frame
    (s : JobStore) (jobName jobNamespace jobPhase : String) (kj : KHJob)
    (hget : jobGet s jobName jobNamespace = .ok kj) :
    setJobPhaseDoc jobName jobNamespace jobPhase kj
      = { kj with spec := { kj.spec with phase := jobPhase } } ∧
    (setJobPhaseDoc jobName jobNamespace jobPhase kj).resourceVersion = kj.resourceVersion ∧
    setJobPhase jobName jobNamespace jobPhase s =
      ({ s with
          docs := fun k => if k = (jobName, jobNamespace)
                    then some ({ kj.spec with phase := jobPhase }, s.nextVersion)
                    else s.docs k,
          nextVersion := s.nextVersion + 1,
          updateCalls := s.updateCalls + 1 }, none) := by
  rcases hdocs : s.docs (jobName, jobNamespace) with _ | ⟨d, rv⟩
  · rw [jobGet, hdocs] at hget
    exact absurd hget (by simp)
  · rw [jobGet, hdocs] at hget
    injection hget with h
    subst h
    refine ⟨rfl, rfl, ?_⟩
    simp [setJobPhase, setJobPhaseWith, jobGet, jobUpdate, setJobPhaseDoc,
      NewKuberhealthyJob, hdocs]

/-- Witness for C2 at the job store holding `nightly-job` in `ops`. -/
theorem setJobPhase_frame_witness :
    setJobPhaseDoc "nightly-job" "ops" "Completed"
        { name := "nightly-job", jobNamespace := "ops", spec := sampleJobSpec, resourceVersion := 3 }
      = { name := "nightly-job", jobNamespace := "ops",
          spec := { sampleJobSpec with phase := "Completed" }, resourceVersion := 3 } ∧
    (setJobPhase "nightly-job" "ops" "Completed" jobStoreWithDoc).2 = none := by
  have h := setJobPhase_frame jobStoreWithDoc "nightly-job" "ops" "Completed"
    { name := "nightly-job", jobNamespace := "ops", spec := sampleJobSpec, resourceVersion := 3 } rfl
  exact ⟨h.1, by rw [h.2.2]⟩

/-- C5: neither `setCheckStateResource` nor `setJobPhase` retries a
failed update: every invocation issues at most one update call (the
store's update counter grows by at most one), and when a concurrent
writer has moved the document's version between the get and the update,
the store's `Conflict` error is returned to the caller unchanged, with
exactly one update call issued and no further store mutation. -/
theorem conflict_surfaced_no_retry :
    (∀ (checkName checkNamespace : String) (st : WorkloadDetails) (pod : String)
        (now : Nat) (s : StateStore),
      ((setCheckStateResource checkName checkNamespace st pod now s).1).updateCalls
        ≤ s.updateCalls + 1) ∧
    (∀ (jobName jobNamespace jobPhase : String) (s : JobStore),
      ((setJobPhase jobName jobNamespace jobPhase s).1).updateCalls ≤ s.updateCalls + 1) ∧
    (∀ (checkName checkNamespace : String) (st : WorkloadDetails) (pod : String) (now : Nat)
        (env : StateStore → StateStore) (s : StateStore)
        (d d' : WorkloadDetails) (rv rv' : Nat),
      s.fault = none →
      s.docs (sanitizeResourceName checkName, checkNamespace) = some (d, rv) →
      (env s).docs (sanitizeResourceName checkName, checkNamespace) = some (d', rv') →
      rv' ≠ rv →
      setCheckStateResourceWith checkName checkNamespace st pod now env s =
        ({ env s with updateCalls := (env s).updateCalls + 1 },
         some (KHError.k8s (K8sErr.conflict
           (sanitizeResourceName checkName ++ " the object has been modified"))))) ∧
    (∀ (jobName jobNamespace jobPhase : String) (env : JobStore → JobStore) (s : JobStore)
        (d d' : JobSpec) (rv rv' : Nat),
      s.docs (jobName, jobNamespace) = some (d, rv) →
      (env s).docs (jobName, jobNamespace) = some (d', rv') →
      rv' ≠ rv →
      setJobPhaseWith jobName jobNamespace jobPhase env s =
        ({ env s with updateCalls := (env s).updateCalls + 1 },
         some (KHError.k8s (K8sErr.conflict
           (jobName ++ " the object has been modified"))))) := by
  refine ⟨?_, ?_, ?_, ?_⟩
  · intro checkName checkNamespace st pod now s
    unfold setCheckStateResource setCheckStateResourceWith
    simp only [id_eq]
    split
    · simp
    · rename_i existingState heq1
      have hc := khUpdate_updateCalls s
        (buildCheckStateDoc (sanitizeResourceName checkName) st pod now
          existingState.resourceVersion)
        (sanitizeResourceName checkName) checkNamespace
      split <;> rename_i s1 r heq2 <;> rw [heq2] at hc <;> simp at hc ⊢ <;> omega
  · intro jobName jobNamespace jobPhase s
    unfold setJobPhase setJobPhaseWith
    simp only [id_eq]
    split
    · simp
    · rename_i kj heq1
      have hc := jobUpdate_updateCalls s
        (setJobPhaseDoc jobName jobNamespace jobPhase kj) jobNamespace
      split <;> rename_i s1 r heq2 <;> rw [heq2] at hc <;> simp at hc ⊢ <;> omega
  · intro checkName checkNamespace st pod now env s d d' rv rv' hf hd hd' hne
    simp [setCheckStateResourceWith, khGet, khUpdate, buildCheckStateDoc,
      NewKuberhealthyState, hf, hd, hd', hne]
  · intro jobName jobNamespace jobPhase env s d d' rv rv' hd hd' hne
    simp [setJobPhaseWith, jobGet, jobUpdate, setJobPhaseDoc, NewKuberhealthyJob,
      hd, hd', hne]

/-- Witness for C5: a conflicting concurrent writer at version 99 makes
both writers surface `Conflict`, with one update call each. -/
theorem conflict_surfaced_no_retry_witness :
    ((setCheckStateResource "db-ping" "ops" sampleDetails "pod-1" 42 storeWithDoc).1).updateCalls
      ≤ storeWithDoc.updateCalls + 1 ∧
    (setCheckStateResourceWith "db-ping" "ops" sampleDetails "pod-1" 42
        (raceEnvAt "db-ping" "ops" sampleDetails 99) storeWithDoc).2
      = some (KHError.k8s (K8sErr.conflict
          (sanitizeResourceName "db-ping" ++ " the object has been modified"))) ∧
    (setJobPhaseWith "nightly-job" "ops" "Failed"
        (jobRaceEnvAt "nightly-job" "ops" sampleJobSpec 99) jobStoreWithDoc).2
      = some (KHError.k8s (K8sErr.conflict
          ("nightly-job" ++ " the object has been modified"))) := by
  refine ⟨conflict_surfaced_no_retry.1 "db-ping" "ops" sampleDetails "pod-1" 42 storeWithDoc, ?_, ?_⟩
  · rw [conflict_surfaced_no_retry.2.2.1 "db-ping" "ops" sampleDetails "pod-1" 42
      (raceEnvAt "db-ping" "ops" sampleDetails 99) storeWithDoc
      sampleDetails sampleDetails 5 99 rfl rfl rfl (by decide)]
  · rw [conflict_surfaced_no_retry.2.2.2 "nightly-job" "ops" "Failed"
      (jobRaceEnvAt "nightly-job" "ops" sampleJobSpec 99) jobStoreWithDoc
      sampleJobSpec sampleJobSpec 3 99 rfl rfl (by decide)]

/-- C1 (counterexample): at the empty store, with a concurrent first
writer installing the `db-ping` document between the get and the create
(`raceEnvAt`), `ensureStateResourceExists`'s get reports NotFound and
its create fails with AlreadyExists — yet the call does NOT return
success: its error component is not `none`.  The source wraps every
create failure, AlreadyExists included, in `errors.New` and returns it
(crd.go:80-82). -/
theorem ensure_alreadyExists_not_success :
    emptyStateStore.docs ("db-ping", "ops") = none ∧
    (raceEnvAt "db-ping" "ops" sampleDetails 1 emptyStateStore).docs ("db-ping", "ops")
      = some (sampleDetails, 1) ∧
    (ensureStateResourceExistsWith "db-ping" "ops" KHWorkload.KHCheck
        (raceEnvAt "db-ping" "ops" sampleDetails 1) emptyStateStore).2 ≠ none := by
  refine ⟨rfl, by decide, by decide⟩

/-- C1 (amended): if the get reports NotFound and the subsequent create
fails with AlreadyExists (a concurrent first writer installed the
document in between), `ensureStateResourceExists` returns the
AlreadyExists failure wrapped by `errors.New` ("Error creating custom
resource: ..."), not success; the document does exist in the store
afterward. -/
theorem ensure_alreadyExists_wrapped
    (checkName checkNamespace : String) (w : KHWorkload)
    (env : StateStore → StateStore) (s : StateStore) (d : WorkloadDetails) (rv : Nat)
    (hf : s.fault = none)
    (habsent : s.docs (sanitizeResourceName checkName, checkNamespace) = none)
    (hrace : (env s).docs (sanitizeResourceName checkName, checkNamespace) = some (d, rv)) :
    ensureStateResourceExistsWith checkName checkNamespace w env s =
      ({ env s with createCalls := (env s).createCalls + 1 },
       some (KHError.newErr ("Error creating custom resource: " ++ sanitizeResourceName checkName
         ++ ": " ++ (sanitizeResourceName checkName ++ " already exists")))) ∧
    ((ensureStateResourceExistsWith checkName checkNamespace w env s).1).docs
        (sanitizeResourceName checkName, checkNamespace) = some (d, rv) := by
  have h1 : ensureStateResourceExistsWith checkName checkNamespace w env s =
      ({ env s with createCalls := (env s).createCalls + 1 },
       some (KHError.newErr ("Error creating custom resource: " ++ sanitizeResourceName checkName
         ++ ": " ++ (sanitizeResourceName checkName ++ " already exists")))) := by
    simp [ensureStateResourceExistsWith, khGet, khCreate, NewKuberhealthyState,
      k8sIsNotFound, K8sErr.message, hf, habsent, hrace]
  refine ⟨h1, ?_⟩
  rw [h1]
  exact hrace

/-- Witness for C1's amended theorem at the empty store with the
concurrent first writer. -/
theorem ensure_alreadyExists_wrapped_witness :
    ensureStateResourceExistsWith "db-ping" "ops" KHWorkload.KHCheck
        (raceEnvAt "db-ping" "ops" sampleDetails 1) emptyStateStore =
      ({ raceEnvAt "db-ping" "ops" sampleDetails 1 emptyStateStore with
          createCalls := (raceEnvAt "db-ping" "ops" sampleDetails 1 emptyStateStore).createCalls + 1 },
       some (KHError.newErr ("Error creating custom resource: " ++ sanitizeResourceName "db-ping"
         ++ ": " ++ (sanitizeResourceName "db-ping" ++ " already exists")))) :=
  (ensure_alreadyExists_wrapped "db-ping" "ops" KHWorkload.KHCheck
    (raceEnvAt "db-ping" "ops" sampleDetails 1) emptyStateStore sampleDetails 1
    rfl rfl rfl).1

/-- C8 (counterexample): at the empty store with a concurrent first
writer, the create step of `ensureStateResourceExists` fails with
AlreadyExists, but the error the function returns is the fresh
`errors.New` wrapping — NOT the create step's error returned unchanged. -/
theorem ensure_create_error_not_unchanged :
    (ensureStateResourceExistsWith "web-check" "kuberhealthy" KHWorkload.KHCheck
        (raceEnvAt "web-check" "kuberhealthy" sampleDetails 7) emptyStateStore).2
      = some (KHError.newErr
          "Error creating custom resource: web-check: web-check already exists") ∧
    (ensureStateResourceExistsWith "web-check" "kuberhealthy" KHWorkload.KHCheck
        (raceEnvAt "web-check" "kuberhealthy" sampleDetails 7) emptyStateStore).2
      ≠ some (KHError.k8s (K8sErr.alreadyExists "web-check already exists")) := by
  refine ⟨by decide, by decide⟩

/-- C8 (amended): a get error that fails the NotFound test (neither
structurally NotFound nor carrying "not found" in its message) is
returned to the caller unchanged, with no create performed; an error
from the create step, however, is returned wrapped by `errors.New` with
the "Error creating custom resource" prefix — not unchanged. -/
theorem ensure_error_propagation :
    (∀ (checkName checkNamespace : String) (w : KHWorkload)
        (env : StateStore → StateStore) (s : StateStore) (e : K8sErr),
      s.fault = some e →
      k8sIsNotFound e = false →
      goStringContains e.message "not found" = false →
      ensureStateResourceExistsWith checkName checkNamespace w env s
        = (s, some (KHError.k8s e))) ∧
    (∀ (checkName checkNamespace : String) (w : KHWorkload)
        (env : StateStore → StateStore) (s : StateStore) (d : WorkloadDetails) (rv : Nat),
      s.fault = none →
      s.docs (sanitizeResourceName checkName, checkNamespace) = none →
      (env s).docs (sanitizeResourceName checkName, checkNamespace) = some (d, rv) →
      (ensureStateResourceExistsWith checkName checkNamespace w env s).2
        = some (KHError.newErr ("Error creating custom resource: "
            ++ sanitizeResourceName checkName ++ ": "
            ++ (sanitizeResourceName checkName ++ " already exists")))) := by
  constructor
  · intro checkName checkNamespace w env s e hf hnf hmsg
    simp [ensureStateResourceExistsWith, khGet, hf, hnf, hmsg]
  · intro checkName checkNamespace w env s d rv hf habsent hrace
    simp [ensureStateResourceExistsWith, khGet, khCreate, NewKuberhealthyState,
      k8sIsNotFound, K8sErr.message, hf, habsent, hrace]

/-- Witness for C8's amended theorem: a transport error propagates
unchanged; a create-step AlreadyExists comes back wrapped. -/
theorem ensure_error_propagation_witness :
    ensureStateResourceExistsWith "db-ping" "ops" KHWorkload.KHCheck id faultyStateStore
      = (faultyStateStore, some (KHError.k8s (K8sErr.other "connection refused"))) ∧
    (ensureStateResourceExistsWith "web-check" "kuberhealthy" KHWorkload.KHJob
        (raceEnvAt "web-check" "kuberhealthy" sampleDetails 7) emptyStateStore).2
      = some (KHError.newErr ("Error creating custom resource: "
          ++ sanitizeResourceName "web-check" ++ ": "
          ++ (sanitizeResourceName "web-check" ++ " already exists"))) :=
  ⟨ensure_error_propagation.1 "db-ping" "ops" KHWorkload.KHCheck id faultyStateStore
      (K8sErr.other "connection refused") rfl rfl (by decide),
   ensure_error_propagation.2 "web-check" "kuberhealthy" KHWorkload.KHJob
      (raceEnvAt "web-check" "kuberhealthy" sampleDetails 7) emptyStateStore
      sampleDetails 7 rfl rfl rfl⟩

/-- C6 (counterexample): `setJobPhase` does not apply the sanitizer
before using the raw job name as the store key.  At a job store holding
a document only under the sanitized key `my-job`, calling it with the
raw name "My Job" fails with NotFound on the raw key, while calling it
with the sanitized name succeeds — so the raw name was passed to the
store unsanitized, contradicting the claim. -/
theorem setJobPhase_unsanitized_name :
    (setJobPhase "My Job" "kuberhealthy" "Completed" jobStoreSan).2
      = some (KHError.k8s (K8sErr.notFound "My Job not found")) ∧
    (setJobPhase (sanitizeResourceName "My Job") "kuberhealthy" "Completed" jobStoreSan).2
      = none := by
  refine ⟨by decide, by decide⟩

/-- C6 (amended): every khstate operation — `setCheckStateResource`,
`ensureStateResourceExists` (with any interference), `getCheckState`,
`getJobState` — sanitizes the raw name before using it as the store key:
each is invariant under pre-sanitizing its name argument.  `setJobPhase`
is the exception: it passes the raw job name to the job store, and so is
not invariant under sanitization. -/
theorem sanitizer_applied_on_khstate_paths :
    (∀ (n ns : String) (st : WorkloadDetails) (pod : String) (now : Nat) (s : StateStore),
      setCheckStateResource (sanitizeResourceName n) ns st pod now s
        = setCheckStateResource n ns st pod now s) ∧
    (∀ (n ns : String) (w : KHWorkload) (env : StateStore → StateStore) (s : StateStore),
      ensureStateResourceExistsWith (sanitizeResourceName n) ns w env s
        = ensureStateResourceExistsWith n ns w env s) ∧
    (∀ (c : KuberhealthyCheck) (s : StateStore),
      getCheckState { name := sanitizeResourceName c.name, checkNamespace := c.checkNamespace } s
        = getCheckState c s) ∧
    (∀ (c : KuberhealthyCheck) (s : StateStore),
      getJobState { name := sanitizeResourceName c.name, checkNamespace := c.checkNamespace } s
        = getJobState c s) ∧
    (∃ (s : JobStore) (n ns p : String),
      setJobPhase n ns p s ≠ setJobPhase (sanitizeResourceName n) ns p s) := by
  refine ⟨setCheckStateResource_sanitize, ensureStateResourceExistsWith_sanitize,
    getCheckState_sanitize, getJobState_sanitize,
    jobStoreSan, "My Job", "kuberhealthy", "Completed", ?_⟩
  intro h
  have h2 := congrArg Prod.snd h
  exact absurd h2 (by decide)

/-- Witness for C6's theorem at a concrete check name and store. -/
theorem sanitizer_applied_on_khstate_paths_witness :
    setCheckStateResource (sanitizeResourceName "My Check") "ops" sampleDetails "pod-1" 42 storeWithDoc
      = setCheckStateResource "My Check" "ops" sampleDetails "pod-1" 42 storeWithDoc :=
  sanitizer_applied_on_khstate_paths.1 "My Check" "ops" sampleDetails "pod-1" 42 storeWithDoc

end Kuberhealthy
